import Mathlib

/-! Overview.
Verification of the agendaBack task service (src/index.js, final version).

The embedding models the MySQL-backed state as Lean lists and each Express
route handler as a pure function from a database state and a request to a
response and a new state.  Request bodies are records of `Option` fields;
JavaScript string truthiness (`!x` rejects both an absent field and the
empty string) is modelled by `truthy`.  Calendar dates are modelled as
integers (day numbers); the SQL `BETWEEN` on the `date` column is inclusive
on both ends.
-/

namespace Agenda

/-- JavaScript truthiness of an optional string field of a JSON body:
absent and `""` are falsy, every other string is truthy. -/
def truthy : Option String → Bool
  | none => false
  | some s => !(s == "")

/- Section: token issuer / verifier.

Modelled from the spec: only the issuing call `jwt.sign({id, nome, email},
'seu_segredo', {expiresIn: '1h'})` appears in src/index.js (line 180); the
`jsonwebtoken` library providing signing and verification is an external
collaborator.  The spec's contract: `issue` serializes the claims plus an
expiry into a token signed with a process-wide key; `verify` checks
signature integrity and expiry and returns the claims, or `Invalid` (here
`none`) when either check fails. -/

/-- The claim set carried by a session token: user id, name, email. -/
structure Claims where
  id : Nat
  nome : String
  email : String
deriving DecidableEq, Repr

/-- Modelled from the spec: the signing function of the external JWT
library, abstracted as a checksum of the key, the claims and the expiry.
Its only properties used below are that it is a function of those inputs
and that `jwtVerify` recomputes it. -/
def signature (key : String) (c : Claims) (exp : Int) : Nat :=
  key.length * 31 + c.id * 7 + c.nome.length * 3 + c.email.length * 5 + exp.natAbs

/-- A signed session token: payload, expiry instant (seconds), signature. -/
structure Token where
  payload : Claims
  exp : Int
  sig : Nat
deriving DecidableEq, Repr

/-- Modelled from the spec: `issue(claims, ttl)` — serializes the claims
plus issued-at and expiry into a signed token. -/
def jwtSign (key : String) (now : Int) (c : Claims) (ttl : Int) : Token :=
  { payload := c, exp := now + ttl, sig := signature key c (now + ttl) }

/-- Modelled from the spec: `verify(token) -> claims | Invalid` — checks
signature integrity and expiry; returns `none` (Invalid), not the claims,
if either check fails. -/
def jwtVerify (key : String) (now : Int) (t : Token) : Option Claims :=
  if t.sig = signature key t.payload t.exp ∧ now < t.exp then some t.payload else none

/-- The process-wide signing key hard-coded in src/index.js line 180. -/
def jwtKey : String := "seu_segredo"

/- Section: password hasher.

Modelled from the spec: src/index.js calls `bcrypt.hash(senha, 10)` (line
111) and `bcrypt.compare(senha, usuario.senha)` (line 173); the bcryptjs
library is an external collaborator.  The spec's contract: `hash` produces
a salted one-way digest (the salt and the one-wayness are abstracted away;
the digest deterministically embeds the cost and the input so that
`verify` can recompute and compare), and `verify(plaintext, digest)`
recomputes and compares. -/

/-- Modelled from the spec: the digest produced by `bcrypt.hash` at the
given cost. -/
def bcryptHash (cost : Nat) (plaintext : String) : String :=
  "$2b$" ++ toString cost ++ "$" ++ plaintext

/-- Modelled from the spec: `bcrypt.compare` recomputes the digest of the
plaintext and compares it with the stored digest. -/
def bcryptCompare (plaintext digest : String) : Bool :=
  digest == bcryptHash 10 plaintext

/- Section: data model (MySQL tables `usuario` and `tasks`). -/

/-- A row of the `usuario` table: `senha` stores the bcrypt digest. -/
structure Usuario where
  id : Nat
  nome : String
  email : String
  senha : String
deriving DecidableEq, Repr

/-- A row of the `tasks` table; `usuario_id` is nullable (tasks created by
the unscoped endpoint have no owner). -/
structure Task where
  id : Nat
  text : String
  date : Int
  priority : String
  folder : String
  concluded : Bool
  usuario_id : Option Nat
deriving DecidableEq, Repr

/-- The database state: both tables plus their auto-increment counters. -/
structure DB where
  usuarios : List Usuario
  tasks : List Task
  nextUserId : Nat
  nextTaskId : Nat
deriving DecidableEq, Repr

/- Section: POST /cadastro (src/index.js lines 90-123). -/

/-- The body of a registration request. -/
structure CadReq where
  nome : Option String
  email : Option String
  senha : Option String
  confirmar_senha : Option String
deriving DecidableEq, Repr

/-- The `if (!nome || !email || !senha || !confirmar_senha)` check. -/
def validCad (r : CadReq) : Bool :=
  truthy r.nome && truthy r.email && truthy r.senha && truthy r.confirmar_senha

/-- Response of the registration route: status, message, resulting state. -/
structure CadRes where
  status : Nat
  message : String
  db : DB
deriving DecidableEq, Repr

/-- POST /cadastro: validates the four fields, rejects mismatched
passwords, rejects an already-registered email, otherwise hashes the
password and inserts the user. -/
def cadastro (db : DB) (r : CadReq) : CadRes :=
  if !(validCad r) then
    ⟨400, "Todos os campos são obrigatórios.", db⟩
  else if r.senha ≠ r.confirmar_senha then
    ⟨400, "As senhas não coincidem.", db⟩
  else if db.usuarios.any (fun u => u.email == r.email.getD "") then
    ⟨400, "E-mail já cadastrado.", db⟩
  else
    ⟨201, "Usuário cadastrado com sucesso!",
      { db with
        usuarios := db.usuarios ++
          [⟨db.nextUserId, r.nome.getD "", r.email.getD "",
            bcryptHash 10 (r.senha.getD "")⟩],
        nextUserId := db.nextUserId + 1 }⟩

/- Section: POST /login (src/index.js lines 155-189). -/

/-- Response of the login route; the token is present only on success. -/
structure LoginRes where
  status : Nat
  message : String
  token : Option Token
deriving DecidableEq, Repr

/-- POST /login: validates the two fields, looks the email up (the code
uses `rows[0]`, i.e. the first matching row), compares the password with
the stored digest, and on success signs a one-hour token over
`{id, nome, email}`. -/
def login (db : DB) (now : Int) (email senha : Option String) : LoginRes :=
  if !(truthy email && truthy senha) then
    ⟨400, "E-mail e senha são obrigatórios.", none⟩
  else
    match db.usuarios.find? (fun u => u.email == email.getD "") with
    | none => ⟨401, "E-mail não encontrado.", none⟩
    | some usuario =>
      if !(bcryptCompare (senha.getD "") usuario.senha) then
        ⟨401, "Senha incorreta.", none⟩
      else
        ⟨200, "Login bem-sucedido!",
          some (jwtSign jwtKey now ⟨usuario.id, usuario.nome, usuario.email⟩ 3600)⟩

/- Section: task bodies. -/

/-- Body of the task-creation routes. -/
structure TaskBody where
  text : Option String
  date : Option Int
  priority : Option String
  folder : Option String
deriving DecidableEq, Repr

/-- Body of the owner-scoped update route (adds `concluded`). -/
structure PutBody where
  text : Option String
  date : Option Int
  priority : Option String
  folder : Option String
  concluded : Option Bool
deriving DecidableEq, Repr

/- Section: POST /usuario/:id/task (src/index.js lines 295-316). -/

/-- POST /usuario/:id/task: all four fields are required (`!folder`
rejects an absent folder); inserts with `concluded = false` and the owner
set to the path parameter. -/
def createUserTask (db : DB) (id : Nat) (b : TaskBody) : Nat × DB :=
  if !(truthy b.text && b.date.isSome && truthy b.priority && truthy b.folder) then
    (400, db)
  else
    (201, { db with
      tasks := db.tasks ++
        [⟨db.nextTaskId, b.text.getD "", b.date.getD 0, b.priority.getD "",
          b.folder.getD "", false, some id⟩],
      nextTaskId := db.nextTaskId + 1 })

/- Section: POST /tasks (src/index.js lines 443-461). -/

/-- POST /tasks: only text, date and priority are required; `folder`
defaults to `"default"` (`folder || 'default'`) and `concluded` to
`false`; the inserted row has no owner. -/
def createTask (db : DB) (b : TaskBody) : Nat × DB :=
  if !(truthy b.text && b.date.isSome && truthy b.priority) then
    (400, db)
  else
    (201, { db with
      tasks := db.tasks ++
        [⟨db.nextTaskId, b.text.getD "", b.date.getD 0, b.priority.getD "",
          if truthy b.folder then b.folder.getD "" else "default", false, none⟩],
      nextTaskId := db.nextTaskId + 1 })

/- Section: ownership guard and owner-scoped mutation routes. -/

/-- The ownership check `SELECT * FROM tasks WHERE id = ? AND usuario_id
= ?` returning at least one row: the task exists and its owner reference
equals the given user (a NULL `usuario_id` never matches). -/
def ownsTask (db : DB) (usuarioId taskId : Nat) : Bool :=
  db.tasks.any (fun t => t.id == taskId && t.usuario_id == some usuarioId)

/-- The `if (!text || !date || !priority || !folder || concluded ===
undefined)` check of the PUT route. -/
def validPutBody (b : PutBody) : Bool :=
  truthy b.text && b.date.isSome && truthy b.priority && truthy b.folder
    && b.concluded.isSome

/-- PUT /usuario/:usuarioId/task/:taskId (src/index.js lines 384-413):
validates the body, runs the ownership check, and on success updates the
row by id (the UPDATE's WHERE clause is on id alone). -/
def putUserTask (db : DB) (usuarioId taskId : Nat) (b : PutBody) : Nat × DB :=
  if !(validPutBody b) then
    (400, db)
  else if !(ownsTask db usuarioId taskId) then
    (404, db)
  else
    (200, { db with
      tasks := db.tasks.map (fun t =>
        if t.id == taskId then
          { t with text := b.text.getD "", date := b.date.getD 0,
                   priority := b.priority.getD "", folder := b.folder.getD "",
                   concluded := b.concluded.getD false }
        else t) })

/-- DELETE /usuario/:usuarioId/task/:taskId (src/index.js lines 416-436):
runs the ownership check, and on success deletes the row by id. -/
def deleteUserTask (db : DB) (usuarioId taskId : Nat) : Nat × DB :=
  if !(ownsTask db usuarioId taskId) then
    (404, db)
  else
    (200, { db with tasks := db.tasks.filter (fun t => !(t.id == taskId)) })

/-- The PUT route as dispatched by the HTTP layer: the inbound request may
carry a session token, but the handler destructures only `req.params` and
`req.body` (src/index.js lines 384-386), so the token argument is unused. -/
def putUserTaskRoute (db : DB) (_tok : Option Token) (usuarioId taskId : Nat)
    (b : PutBody) : Nat × DB :=
  putUserTask db usuarioId taskId b

/-- The DELETE route as dispatched by the HTTP layer: the handler
destructures only `req.params` (src/index.js line 417), so the token
argument is unused. -/
def deleteUserTaskRoute (db : DB) (_tok : Option Token) (usuarioId taskId : Nat) :
    Nat × DB :=
  deleteUserTask db usuarioId taskId

/-- Successful token verification of the (optional) token attached to a
request: an absent token never verifies. -/
def checkAuth (now : Int) : Option Token → Option Claims
  | none => none
  | some t => jwtVerify jwtKey now t

/- Section: PATCH /tasks/:id and DELETE /tasks/:id (src/index.js lines 506-543). -/

/-- PATCH /tasks/:id: requires `concluded` in the body (`typeof concluded
=== 'undefined'` → 400), runs `UPDATE tasks SET concluded = ? WHERE id =
?`, and maps zero affected rows to 404. -/
def patchTask (db : DB) (id : Nat) (concluded : Option Bool) : Nat × DB :=
  match concluded with
  | none => (400, db)
  | some c =>
    if db.tasks.any (fun t => t.id == id) then
      (200, { db with
        tasks := db.tasks.map (fun t =>
          if t.id == id then { t with concluded := c } else t) })
    else (404, db)

/-- DELETE /tasks/:id: deletes by id, mapping zero affected rows to 404. -/
def deleteTaskById (db : DB) (id : Nat) : Nat × DB :=
  if db.tasks.any (fun t => t.id == id) then
    (200, { db with tasks := db.tasks.filter (fun t => !(t.id == id)) })
  else (404, db)

/- Section: GET /tasks/week (src/index.js lines 550-575). -/

/-- GET /tasks/week: with start date `start`, the end date is `start + 6`
days and the query is `date BETWEEN ? AND ?`, inclusive on both ends. -/
def tasksWeek (db : DB) (start : Int) : List Task :=
  db.tasks.filter (fun t => decide (start ≤ t.date) && decide (t.date ≤ start + 6))

/- Section: registration sequences. -/

/-- No two stored users share an email. -/
def uniqueEmails (us : List Usuario) : Prop :=
  us.Pairwise (fun a b => a.email ≠ b.email)

/-- Run a sequence of registration requests. -/
def runCadastros (db : DB) (rs : List CadReq) : DB :=
  rs.foldl (fun d r => (cadastro d r).db) db

/- Section: helper lemmas. -/

/-- A bcrypt digest is strictly longer than its input, hence never equal
to the plaintext. -/
theorem bcryptHash_ne (p : String) : bcryptHash 10 p ≠ p := by
  intro h
  have hl := congrArg String.length h
  simp [bcryptHash, String.length_append] at hl
  exact absurd hl.1.1 (by decide)

/-- The ownership check fails exactly when no stored task both has the
given id and is owned by the given user. -/
theorem ownsTask_eq_false {db : DB} {usuarioId taskId : Nat}
    (hno : ∀ t ∈ db.tasks, t.id = taskId → t.usuario_id ≠ some usuarioId) :
    ownsTask db usuarioId taskId = false := by
  rw [Bool.eq_false_iff]
  intro hc
  rw [ownsTask, List.any_eq_true] at hc
  obtain ⟨t, ht, hP⟩ := hc
  simp only [Bool.and_eq_true, beq_iff_eq] at hP
  exact hno t ht hP.1 hP.2

/-- Claim C1: for every owner id and task id, the ownership guard of the
owner-scoped update and delete denies both when the task does not exist
and when it exists with a different owner reference, and in both cases the
caller observes a 404 response with the state unchanged. -/
theorem ownership_guard_denies (db : DB) (usuarioId taskId : Nat) (b : PutBody)
    (hb : validPutBody b = true)
    (hno : ∀ t ∈ db.tasks, t.id = taskId → t.usuario_id ≠ some usuarioId) :
    putUserTask db usuarioId taskId b = (404, db) ∧
    deleteUserTask db usuarioId taskId = (404, db) := by
  have hown := ownsTask_eq_false hno
  constructor
  · simp [putUserTask, hb, hown]
  · simp [deleteUserTask, hown]

def c1db : DB := ⟨[], [⟨1, "t", 10, "p", "f", false, some 1⟩], 1, 2⟩

def c1body : PutBody := ⟨some "u", some 11, some "q", some "g", some true⟩

/-- Witness for C1: a task owned by user 1 is denied to user 2, and a
nonexistent task id is denied to its would-be owner, both as 404 with the
state unchanged. -/
theorem ownership_guard_denies_witness :
    (putUserTask c1db 2 1 c1body = (404, c1db) ∧
      deleteUserTask c1db 2 1 = (404, c1db)) ∧
    (putUserTask c1db 1 9 c1body = (404, c1db) ∧
      deleteUserTask c1db 1 9 = (404, c1db)) :=
  ⟨ownership_guard_denies c1db 2 1 c1body (by decide) (by decide),
   ownership_guard_denies c1db 1 9 c1body (by decide) (by decide)⟩

def c2db : DB := ⟨[], [⟨1, "t", 10, "p", "f", false, some 1⟩], 1, 2⟩

def c2db2 : DB := ⟨[], [⟨3, "s", 4, "p", "f", false, some 2⟩], 1, 4⟩

def c2body : PutBody := ⟨some "u", some 11, some "q", some "g", some true⟩

/-- Counterexample to claim C2: the owner-scoped update route mutates the
store for a request that carries no token at all, and no successful token
verification can have occurred for that request (an absent token never
verifies), so an owner-scoped update reaches the persistence layer without
any token verification. -/
theorem update_without_token_counterexample :
    (putUserTaskRoute c2db none 1 1 c2body).1 = 200 ∧
    (putUserTaskRoute c2db none 1 1 c2body).2 ≠ c2db ∧
    ∀ now : Int, checkAuth now none = none := by
  refine ⟨by decide, by decide, fun _ => rfl⟩

/-- Claim C2 (amended): the owner-scoped update and delete routes perform
no token verification at all — their outcome is independent of any token
attached to the request — and only the ownership check precedes the
repository operation: whenever the store is mutated, the ownership check
had passed. -/
theorem owner_routes_ignore_token :
    (∀ (db : DB) (t1 t2 : Option Token) (u i : Nat) (b : PutBody),
        putUserTaskRoute db t1 u i b = putUserTaskRoute db t2 u i b) ∧
    (∀ (db : DB) (t1 t2 : Option Token) (u i : Nat),
        deleteUserTaskRoute db t1 u i = deleteUserTaskRoute db t2 u i) ∧
    (∀ (db : DB) (u i : Nat) (b : PutBody),
        (putUserTask db u i b).2 ≠ db → ownsTask db u i = true) ∧
    (∀ (db : DB) (u i : Nat),
        (deleteUserTask db u i).2 ≠ db → ownsTask db u i = true) := by
  refine ⟨fun _ _ _ _ _ _ => rfl, fun _ _ _ _ _ => rfl, ?_, ?_⟩
  · intro db u i b h
    cases hv : validPutBody b with
    | false => exact absurd (by simp [putUserTask, hv]) h
    | true =>
      cases ho : ownsTask db u i with
      | false => exact absurd (by simp [putUserTask, hv, ho]) h
      | true => rfl
  · intro db u i h
    cases ho : ownsTask db u i with
    | false => exact absurd (by simp [deleteUserTask, ho]) h
    | true => rfl

/-- Witness for the amended C2: concrete updates and deletes whose store
mutation forces the ownership check to have passed, and a concrete request
whose outcome is the same with and without a token attached. -/
theorem owner_routes_ignore_token_witness :
    putUserTaskRoute c2db none 1 1 c2body =
      putUserTaskRoute c2db (some ⟨⟨1, "a", "b"⟩, 9, 9⟩) 1 1 c2body ∧
    ownsTask c2db 1 1 = true ∧
    ownsTask c2db2 2 3 = true :=
  ⟨owner_routes_ignore_token.1 c2db none (some ⟨⟨1, "a", "b"⟩, 9, 9⟩) 1 1 c2body,
   owner_routes_ignore_token.2.2.1 c2db 1 1 c2body (by decide),
   owner_routes_ignore_token.2.2.2 c2db2 2 3 (by decide)⟩

/-- Claim C3: a token issued with the one-hour TTL passes verification
immediately and decodes to claims equal to the input; a token whose
signature is corrupted, or whose expiry lies in the past, yields Invalid
(`none`) — the same observable outcome in both failure cases. -/
theorem token_issue_verify :
    (∀ (now : Int) (c : Claims),
        jwtVerify jwtKey now (jwtSign jwtKey now c 3600) = some c) ∧
    (∀ (now : Int) (t : Token), t.sig ≠ signature jwtKey t.payload t.exp →
        jwtVerify jwtKey now t = none) ∧
    (∀ (now : Int) (t : Token), t.exp ≤ now →
        jwtVerify jwtKey now t = none) := by
  refine ⟨?_, ?_, ?_⟩
  · intro now c
    have h : now < now + 3600 := by omega
    simp [jwtVerify, jwtSign, h]
  · intro now t h
    rw [jwtVerify, if_neg]
    intro hc
    exact h hc.1
  · intro now t h
    rw [jwtVerify, if_neg]
    intro hc
    omega

/-- Witness for C3: a concrete round trip, a concrete corrupted-signature
rejection and a concrete expired-token rejection. -/
theorem token_issue_verify_witness :
    jwtVerify jwtKey 0 (jwtSign jwtKey 0 ⟨1, "Ana", "a@x.com"⟩ 3600) =
      some ⟨1, "Ana", "a@x.com"⟩ ∧
    jwtVerify jwtKey 0
      ⟨⟨1, "Ana", "a@x.com"⟩, 3600, signature jwtKey ⟨1, "Ana", "a@x.com"⟩ 3600 + 1⟩ = none ∧
    jwtVerify jwtKey 5000
      ⟨⟨1, "Ana", "a@x.com"⟩, 3600, signature jwtKey ⟨1, "Ana", "a@x.com"⟩ 3600⟩ = none :=
  ⟨token_issue_verify.1 0 ⟨1, "Ana", "a@x.com"⟩,
   token_issue_verify.2.1 0 _ (by decide),
   token_issue_verify.2.2 5000 _ (by decide)⟩

/-- Claim C4: PATCH /tasks/:id with a body lacking `concluded` returns 400
with the state unchanged, and with `concluded = true` against an id that
matches no task returns 404. -/
theorem patch_missing_and_not_found (db : DB) (id : Nat)
    (habs : ∀ t ∈ db.tasks, t.id ≠ id) :
    patchTask db id none = (400, db) ∧
    patchTask db id (some true) = (404, db) := by
  have hany : db.tasks.any (fun t => t.id == id) = false := by
    rw [Bool.eq_false_iff]
    intro hc
    rw [List.any_eq_true] at hc
    obtain ⟨t, ht, hP⟩ := hc
    exact habs t ht (by simpa using hP)
  exact ⟨rfl, by simp [patchTask, hany]⟩

def c4db : DB := ⟨[], [⟨1, "t", 10, "p", "f", false, none⟩], 1, 2⟩

/-- Witness for C4: against a store whose only task has id 1, PATCH on id
5 with no `concluded` gives 400 and with `concluded = true` gives 404,
both leaving the store unchanged. -/
theorem patch_missing_and_not_found_witness :
    patchTask c4db 5 none = (400, c4db) ∧
    patchTask c4db 5 (some true) = (404, c4db) :=
  patch_missing_and_not_found c4db 5 (by decide)

/-- The user row inserted by a successful registration. -/
def newUser (db : DB) (r : CadReq) : Usuario :=
  ⟨db.nextUserId, r.nome.getD "", r.email.getD "", bcryptHash 10 (r.senha.getD "")⟩

/-- A registration that answers 201 passed validation, found the email
fresh, and appended exactly the hashed new user row. -/
theorem cadastro_succ (db : DB) (r : CadReq) (h : (cadastro db r).status = 201) :
    validCad r = true ∧
    db.usuarios.any (fun u => u.email == r.email.getD "") = false ∧
    (cadastro db r).db =
      { db with usuarios := db.usuarios ++ [newUser db r],
                nextUserId := db.nextUserId + 1 } := by
  unfold cadastro at h ⊢
  split at h
  next hc => simp at h
  next hc =>
    split at h
    next hc2 => simp at h
    next hc2 =>
      split at h
      next hc3 => simp at h
      next hc3 =>
        refine ⟨by simpa using hc, by simpa using hc3, ?_⟩
        rw [if_neg hc, if_neg hc2, if_neg hc3]
        rfl

/-- One registration step preserves email uniqueness. -/
theorem cadastro_preserves_unique (db : DB) (r : CadReq)
    (h : uniqueEmails db.usuarios) : uniqueEmails (cadastro db r).db.usuarios := by
  unfold cadastro
  split
  · exact h
  · split
    · exact h
    · split
      next hany => exact h
      next hany =>
        unfold uniqueEmails at h ⊢
        simp only []
        rw [List.pairwise_append]
        refine ⟨h, List.pairwise_singleton _ _, ?_⟩
        intro a ha b hb
        simp only [List.mem_singleton] at hb
        subst hb
        intro heq
        apply hany
        rw [List.any_eq_true]
        exact ⟨a, ha, by simp [heq]⟩

/-- Claim C5: a second registration with the email of a previously
successful registration answers 400 duplicate-email and inserts nothing;
and any sequence of registrations preserves the invariant that no two
stored users share an email. -/
theorem duplicate_email_conflict :
    (∀ (db : DB) (r1 r2 : CadReq),
        (cadastro db r1).status = 201 →
        r2.email = r1.email →
        validCad r2 = true →
        r2.senha = r2.confirmar_senha →
        cadastro (cadastro db r1).db r2 =
          ⟨400, "E-mail já cadastrado.", (cadastro db r1).db⟩) ∧
    (∀ (db : DB) (rs : List CadReq),
        uniqueEmails db.usuarios → uniqueEmails (runCadastros db rs).usuarios) := by
  constructor
  · intro db r1 r2 h201 hem hv2 hs2
    obtain ⟨hv1, _, hdb⟩ := cadastro_succ db r1 h201
    rw [hdb]
    unfold cadastro
    rw [if_neg (by simp [hv2]), if_neg (by simp [hs2]), if_pos]
    rw [List.any_append]
    apply Bool.or_eq_true_iff.mpr
    right
    simp [newUser, hem]
  · intro db rs h
    induction rs generalizing db with
    | nil => exact h
    | cons r rs ih => exact ih (cadastro db r).db (cadastro_preserves_unique db r h)

def c5db : DB := ⟨[], [], 1, 1⟩

def c5req : CadReq := ⟨some "Ana", some "a@x.com", some "secret", some "secret"⟩

/-- Witness for C5: registering the same email twice from the empty store
yields the duplicate-email 400 with the state unchanged, and the run of
both requests leaves the stored emails unique. -/
theorem duplicate_email_conflict_witness :
    cadastro (cadastro c5db c5req).db c5req =
      ⟨400, "E-mail já cadastrado.", (cadastro c5db c5req).db⟩ ∧
    uniqueEmails (runCadastros c5db [c5req, c5req]).usuarios :=
  ⟨duplicate_email_conflict.1 c5db c5req c5req (by decide) rfl (by decide) rfl,
   duplicate_email_conflict.2 c5db [c5req, c5req] (by simp [c5db, uniqueEmails])⟩

/-- Claim C6: a valid registration with a fresh email succeeds, stores
exactly the bcrypt digest (never the plaintext) for the created user, the
digest differs from the plaintext, and verifying the plaintext against the
stored digest succeeds. -/
theorem stored_hash_not_plaintext (db : DB) (nome email senha : String)
    (hn : nome ≠ "") (he : email ≠ "") (hs : senha ≠ "")
    (hfresh : db.usuarios.any (fun u => u.email == email) = false) :
    (cadastro db ⟨some nome, some email, some senha, some senha⟩).status = 201 ∧
    (cadastro db ⟨some nome, some email, some senha, some senha⟩).db.usuarios =
      db.usuarios ++ [⟨db.nextUserId, nome, email, bcryptHash 10 senha⟩] ∧
    bcryptHash 10 senha ≠ senha ∧
    bcryptCompare senha (bcryptHash 10 senha) = true := by
  have hvalid : validCad ⟨some nome, some email, some senha, some senha⟩ = true := by
    simp [validCad, truthy, hn, he, hs]
  refine ⟨?_, ?_, bcryptHash_ne senha, by simp [bcryptCompare]⟩
  · simp [cadastro, hvalid, hfresh]
  · simp [cadastro, hvalid, hfresh]

def c6db : DB := ⟨[], [], 1, 1⟩

/-- Witness for C6: a concrete valid registration stores the digest
`"$2b$10$secret"`, which differs from `"secret"` and verifies against it. -/
theorem stored_hash_not_plaintext_witness :
    (cadastro c6db ⟨some "Ana", some "a@x.com", some "secret", some "secret"⟩).status = 201 ∧
    (cadastro c6db ⟨some "Ana", some "a@x.com", some "secret", some "secret"⟩).db.usuarios =
      c6db.usuarios ++ [⟨c6db.nextUserId, "Ana", "a@x.com", bcryptHash 10 "secret"⟩] ∧
    bcryptHash 10 "secret" ≠ "secret" ∧
    bcryptCompare "secret" (bcryptHash 10 "secret") = true :=
  stored_hash_not_plaintext c6db "Ana" "a@x.com" "secret"
    (by decide) (by decide) (by decide) (by decide)

/-- Claim C7: unscoped creation with text, date and priority but no folder
succeeds, storing folder `"default"` and `concluded = false` with no
owner; owner-scoped creation with no folder answers 400 and inserts
nothing. -/
theorem create_folder_asymmetry (db : DB) (uid : Nat) (text priority : String)
    (d : Int) (ht : text ≠ "") (hp : priority ≠ "") :
    createTask db ⟨some text, some d, some priority, none⟩ =
      (201, { db with
        tasks := db.tasks ++ [⟨db.nextTaskId, text, d, priority, "default", false, none⟩],
        nextTaskId := db.nextTaskId + 1 }) ∧
    createUserTask db uid ⟨some text, some d, some priority, none⟩ = (400, db) := by
  constructor
  · simp [createTask, truthy, ht, hp]
  · simp [createUserTask, truthy]

def c7db : DB := ⟨[], [], 1, 1⟩

/-- Witness for C7: a concrete folderless body is accepted by POST /tasks
with folder `"default"` and rejected with 400 by POST /usuario/:id/task. -/
theorem create_folder_asymmetry_witness :
    createTask c7db ⟨some "buy milk", some 10, some "high", none⟩ =
      (201, { c7db with
        tasks := c7db.tasks ++ [⟨c7db.nextTaskId, "buy milk", 10, "high", "default", false, none⟩],
        nextTaskId := c7db.nextTaskId + 1 }) ∧
    createUserTask c7db 1 ⟨some "buy milk", some 10, some "high", none⟩ = (400, c7db) :=
  create_folder_asymmetry c7db 1 "buy milk" "high" 10 (by decide) (by decide)

/-- Claim C8: the week listing with start date `start` (end date `start +
6`) includes every stored task dated exactly `start` and exactly the end
date, and excludes every stored task dated one day before `start` or one
day after the end date. -/
theorem week_range_inclusive (db : DB) (start : Int) (t : Task)
    (ht : t ∈ db.tasks) :
    (t.date = start → t ∈ tasksWeek db start) ∧
    (t.date = start + 6 → t ∈ tasksWeek db start) ∧
    (t.date + 1 = start → t ∉ tasksWeek db start) ∧
    (t.date = start + 7 → t ∉ tasksWeek db start) := by
  refine ⟨?_, ?_, ?_, ?_⟩ <;> intro hd <;>
    simp only [tasksWeek, List.mem_filter, Bool.and_eq_true, decide_eq_true_eq]
  · exact ⟨ht, by omega, by omega⟩
  · exact ⟨ht, by omega, by omega⟩
  · rintro ⟨-, h1, -⟩
    omega
  · rintro ⟨-, -, h2⟩
    omega

def c8db : DB :=
  ⟨[], [⟨1, "a", 10, "p", "f", false, none⟩, ⟨2, "b", 16, "p", "f", false, none⟩,
        ⟨3, "c", 9, "p", "f", false, none⟩, ⟨4, "d", 17, "p", "f", false, none⟩], 1, 5⟩

/-- Witness for C8: with start date 10, tasks dated 10 and 16 are listed
while tasks dated 9 and 17 are not. -/
theorem week_range_inclusive_witness :
    (⟨1, "a", 10, "p", "f", false, none⟩ : Task) ∈ tasksWeek c8db 10 ∧
    (⟨2, "b", 16, "p", "f", false, none⟩ : Task) ∈ tasksWeek c8db 10 ∧
    (⟨3, "c", 9, "p", "f", false, none⟩ : Task) ∉ tasksWeek c8db 10 ∧
    (⟨4, "d", 17, "p", "f", false, none⟩ : Task) ∉ tasksWeek c8db 10 :=
  ⟨(week_range_inclusive c8db 10 _ (by decide)).1 rfl,
   (week_range_inclusive c8db 10 _ (by decide)).2.1 rfl,
   (week_range_inclusive c8db 10 _ (by decide)).2.2.1 rfl,
   (week_range_inclusive c8db 10 _ (by decide)).2.2.2 rfl⟩

/-- Claim C9: login answers 400 when email or password is missing; 401
with no token when the email matches no stored user or the password fails
verification against the stored digest; and 200 with a token when the
stored digest is the hash of the supplied password. -/
theorem login_outcomes (db : DB) (now : Int) :
    (∀ email senha : Option String, (truthy email && truthy senha) = false →
        login db now email senha = ⟨400, "E-mail e senha são obrigatórios.", none⟩) ∧
    (∀ email senha : Option String, (truthy email && truthy senha) = true →
        db.usuarios.find? (fun u => u.email == email.getD "") = none →
        login db now email senha = ⟨401, "E-mail não encontrado.", none⟩) ∧
    (∀ (email senha : Option String) (u : Usuario),
        (truthy email && truthy senha) = true →
        db.usuarios.find? (fun v => v.email == email.getD "") = some u →
        bcryptCompare (senha.getD "") u.senha = false →
        login db now email senha = ⟨401, "Senha incorreta.", none⟩) ∧
    (∀ (email senha : Option String) (u : Usuario),
        (truthy email && truthy senha) = true →
        db.usuarios.find? (fun v => v.email == email.getD "") = some u →
        u.senha = bcryptHash 10 (senha.getD "") →
        login db now email senha = ⟨200, "Login bem-sucedido!",
          some (jwtSign jwtKey now ⟨u.id, u.nome, u.email⟩ 3600)⟩) := by
  refine ⟨?_, ?_, ?_, ?_⟩
  · intro email senha h
    simp [login, h]
  · intro email senha h hf
    simp [login, h, hf]
  · intro email senha u h hf hcmp
    simp [login, h, hf, hcmp]
  · intro email senha u h hf hsen
    simp [login, h, hf, hsen, bcryptCompare]

def c9db : DB :=
  (cadastro ⟨[], [], 1, 1⟩ ⟨some "Ana", some "a@x.com", some "secret", some "secret"⟩).db

/-- Witness for C9: against a store holding the user registered with
`a@x.com`/`secret`, the four login outcomes at concrete inputs. -/
theorem login_outcomes_witness :
    login c9db 0 (some "a@x.com") none =
      ⟨400, "E-mail e senha são obrigatórios.", none⟩ ∧
    login c9db 0 (some "b@x.com") (some "secret") =
      ⟨401, "E-mail não encontrado.", none⟩ ∧
    login c9db 0 (some "a@x.com") (some "wrong") =
      ⟨401, "Senha incorreta.", none⟩ ∧
    login c9db 0 (some "a@x.com") (some "secret") =
      ⟨200, "Login bem-sucedido!",
        some (jwtSign jwtKey 0 ⟨1, "Ana", "a@x.com"⟩ 3600)⟩ :=
  ⟨(login_outcomes c9db 0).1 (some "a@x.com") none (by decide),
   (login_outcomes c9db 0).2.1 (some "b@x.com") (some "secret") (by decide) (by decide),
   (login_outcomes c9db 0).2.2.1 (some "a@x.com") (some "wrong")
     ⟨1, "Ana", "a@x.com", bcryptHash 10 "secret"⟩ (by decide) (by decide) (by decide),
   (login_outcomes c9db 0).2.2.2 (some "a@x.com") (some "secret")
     ⟨1, "Ana", "a@x.com", bcryptHash 10 "secret"⟩ (by decide) (by decide) (by decide)⟩

/-- Claim C10: a successful PATCH /tasks/:id answers 200, leaves the user
table unchanged, and relates the new task list to the old one pointwise:
every task keeps its id, text, date, priority, folder and owner reference,
and every task whose id differs from the patched one is entirely
unchanged. -/
theorem patch_frame (db : DB) (id : Nat) (c : Bool)
    (hex : db.tasks.any (fun t => t.id == id) = true) :
    (patchTask db id (some c)).1 = 200 ∧
    (patchTask db id (some c)).2.usuarios = db.usuarios ∧
    List.Forall₂ (fun s t => s.id = t.id ∧ s.text = t.text ∧ s.date = t.date ∧
        s.priority = t.priority ∧ s.folder = t.folder ∧
        s.usuario_id = t.usuario_id ∧ (t.id ≠ id → s = t))
      (patchTask db id (some c)).2.tasks db.tasks := by
  refine ⟨by simp [patchTask, hex], by simp [patchTask, hex], ?_⟩
  have hmap : (patchTask db id (some c)).2.tasks =
      db.tasks.map (fun t => if t.id == id then { t with concluded := c } else t) := by
    simp [patchTask, hex]
  rw [hmap]
  clear hex hmap
  induction db.tasks with
  | nil => exact List.Forall₂.nil
  | cons t ts ih =>
    refine List.Forall₂.cons ?_ ih
    by_cases hid : t.id = id
    · simp [hid]
    · simp [hid]

def c10db : DB :=
  ⟨[], [⟨1, "t", 10, "p", "f", false, some 1⟩, ⟨2, "u", 11, "q", "g", false, none⟩], 1, 3⟩

/-- Witness for C10: patching task 1 in a two-task store succeeds with the
frame property instantiated. -/
theorem patch_frame_witness :
    (patchTask c10db 1 (some true)).1 = 200 ∧
    (patchTask c10db 1 (some true)).2.usuarios = c10db.usuarios :=
  ⟨(patch_frame c10db 1 true (by decide)).1, (patch_frame c10db 1 true (by decide)).2.1⟩

end Agenda
